import Mathlib

/-!
Verification of the connection-resilience and poll-orchestration subsystem of
powerwall-influx, shallowly embedded from `powerwall_service/clients.py`,
`powerwall_service/service.py` and `powerwall_service/connect_wifi.py`.
Python exceptions become explicit `Except` results, the mutable instance
fields of the poller become a `PollerState` value threaded through the functions,
and the monotonic clock plus every external call (device reads, storage
writes, the Wi-Fi rejoin) are supplied as explicit oracle inputs.
-/

namespace Powerwall

/-- Runtime class of a Python exception, as far as the two classifiers in
`clients.py` inspect it.  `requests.exceptions.HTTPError` is a subclass of
`RequestException`, so it is singled out (it is the only class whose
`response.status_code` is consulted) while still counting as a network
exception. -/
inductive ExcKind where
  | requestsHTTPError
  | requestException
  | urllib3HTTPError
  | connectionError
  | osError
  | generic
  deriving Repr, DecidableEq

/-- A Python exception value as seen by `_is_connection_error` and
`_is_auth_error` in `clients.py`: its class, the optional
`response.status_code` (present only when `exc.response is not None`),
whether `str(exc).lower()` contains one of the textual auth indicators
(403, 401, forbidden, unauthorized, authentication), and the optional
`__cause__` and `__context__` links. -/
inductive Exc where
  | mk (kind : ExcKind) (status : Option Nat) (msgAuth : Bool)
      (cause : Option Exc) (context : Option Exc)

def Exc.kind : Exc → ExcKind
  | .mk k _ _ _ _ => k

/-- The isinstance check at the top of `_is_connection_error`:
`requests` exceptions, `urllib3` HTTP errors, `ConnectionError`, `OSError`. -/
def kind_is_network : ExcKind → Bool
  | .requestsHTTPError => true
  | .requestException => true
  | .urllib3HTTPError => true
  | .connectionError => true
  | .osError => true
  | .generic => false

/-- `_is_connection_error` (clients.py lines 38-60): true when the exception
or anything reachable through its cause/context chain is a network-class
exception. -/
def is_connection_error : Exc → Bool
  | .mk k _ _ c cx =>
    kind_is_network k ||
    (match c with
     | some e => is_connection_error e
     | none => false) ||
    (match cx with
     | some e => is_connection_error e
     | none => false)

/-- `_is_auth_error` (clients.py lines 63-86).  For a `requests` HTTPError
with a response object the status code alone decides (an early return, so
neither the message nor the chain is consulted in that case); otherwise the
textual indicators in the message, then the cause/context chain. -/
def is_auth_error : Exc → Bool
  | .mk k st m c cx =>
    match k, st with
    | .requestsHTTPError, some code => code == 401 || code == 403
    | _, _ =>
      m ||
      (match c with
       | some e => is_auth_error e
       | none => false) ||
      (match cx with
       | some e => is_auth_error e
       | none => false)

/-- The closed classification consumed at the error-handling sites. -/
inductive FailureClass where
  | auth
  | conn
  | other
  deriving Repr, DecidableEq

/-- Branch order of the per-read handlers in `fetch_snapshot`
(clients.py lines 248, 293, 329): `if _is_auth_error(exc): ...
elif _is_connection_error(exc): ... else: ...` — auth is tested first. -/
def classify_read (e : Exc) : FailureClass :=
  if is_auth_error e then .auth
  else if is_connection_error e then .conn
  else .other

/-- Branch order of the outermost handler of `fetch_snapshot`
(clients.py lines 374-387): `if _is_connection_error(exc): ...
elif _is_auth_error(exc): ... else: ...` — connection is tested first. -/
def classify_outer (e : Exc) : FailureClass :=
  if is_connection_error e then .conn
  else if is_auth_error e then .auth
  else .other

/-- An HTTP transport error carrying status 403: a `requests` HTTPError,
hence network-classified, whose status (and message) also carry the auth
signal. -/
def exc403 : Exc := .mk .requestsHTTPError (some 403) true none none

/-- A pure network failure with no auth signal anywhere. -/
def excConnRefused : Exc := .mk .connectionError none false none none

/-- A pure auth failure: a generic exception whose message mentions 403. -/
def excAuthMsg : Exc := .mk .generic none true none none

/-- A generic exception with neither signal. -/
def excOther : Exc := .mk .generic none false none none

/-- A live `pypowerwall.Powerwall` session object, reduced to the one bit the
poller ever reads from it: what its `is_connected()` probe reports. -/
structure Handle where
  is_connected : Bool
  deriving Repr, DecidableEq

/-- The mutable instance fields of `PowerwallPoller` (clients.py lines
92-100), plus a ghost counter `attempts` that counts every invocation of the
`pypowerwall.Powerwall(...)` constructor, so that theorems can say "no
connection attempt was made". -/
structure PollerState where
  powerwall : Option Handle
  consecutive_auth_failures : Nat
  max_auth_failures : Nat
  consecutive_connection_failures : Nat
  last_connection_attempt : ℤ
  backoff_base : ℤ
  backoff_max : ℤ
  attempts : Nat
  deriving Repr, DecidableEq

/-- The field values set by `PowerwallPoller.__init__`. -/
def PollerState.init : PollerState :=
  { powerwall := none
    consecutive_auth_failures := 0
    max_auth_failures := 3
    consecutive_connection_failures := 0
    last_connection_attempt := 0
    backoff_base := 30
    backoff_max := 300
    attempts := 0 }

/-- `PowerwallPoller.close` (clients.py lines 102-110): drop the session
handle and reset the auth-failure counter; connection failures and the
last-attempt timestamp are deliberately left untouched. -/
def close (s : PollerState) : PollerState :=
  { s with powerwall := none, consecutive_auth_failures := 0 }

/-- The two-argument `min` of Python: the first argument when it does not exceed
the second. -/
def pymin (a b : ℤ) : ℤ := if a ≤ b then a else b

/-- The exponential backoff computed inside `_ensure_connection`
(clients.py lines 135-138): `base * 2^(failures-1)` capped at the maximum. -/
def backoff_time (s : PollerState) : ℤ :=
  pymin (s.backoff_base * 2 ^ (s.consecutive_connection_failures - 1)) s.backoff_max

/-- Errors `_ensure_connection` can raise: a backoff rejection (a
`PowerwallUnavailableError` carrying the remaining wait), a
connection-classified constructor failure (wrapped into
`PowerwallUnavailableError`), or any other constructor exception re-raised
unchanged. -/
inductive EnsureErr where
  | backoffActive (remaining : ℤ)
  | connectFailed
  | raw (e : Exc)

/-- The part of `_ensure_connection` from the backoff check onward
(clients.py lines 128-220).  `now` is `time.monotonic()` and `connectRes`
is the outcome the `pypowerwall.Powerwall(...)` constructor would produce
if invoked. -/
def ensure_attempt (s : PollerState) (now : ℤ) (connectRes : Except Exc Handle) :
    Except EnsureErr Unit × PollerState :=
  if s.consecutive_connection_failures > 0 ∧
      now - s.last_connection_attempt < backoff_time s then
    (Except.error (.backoffActive (backoff_time s - (now - s.last_connection_attempt))), s)
  else
    match connectRes with
    | .ok h =>
        (Except.ok (),
          { s with powerwall := some h
                   consecutive_auth_failures := 0
                   consecutive_connection_failures := 0
                   attempts := s.attempts + 1 })
    | .error e =>
        let s2 :=
          { s with consecutive_connection_failures := s.consecutive_connection_failures + 1
                   last_connection_attempt := now
                   attempts := s.attempts + 1 }
        if is_connection_error e then (Except.error .connectFailed, s2)
        else (Except.error (.raw e), s2)

/-- `_ensure_connection` (clients.py lines 112-220).  On `force_reconnect`
the session is closed; otherwise a live handle whose `is_connected()` probe
reports true makes the call return immediately; with no handle the state is
cleaned with `close()`; then the backoff check and the actual constructor
call follow. -/
def ensure_connection (s : PollerState) (force_reconnect : Bool) (now : ℤ)
    (connectRes : Except Exc Handle) : Except EnsureErr Unit × PollerState :=
  if force_reconnect then
    ensure_attempt (close s) now connectRes
  else
    match s.powerwall with
    | some h =>
        if h.is_connected then (Except.ok (), s)
        else ensure_attempt s now connectRes
    | none => ensure_attempt (close s) now connectRes

/-- `_ensure_connection` as written in the refactored variant
`powerwall_client.py` (lines 113-131): the early return requires only a
live handle, with the probe deliberately not consulted.  With no handle
and no force its `if self._powerwall is not None: self.close()` guard is
dead, so the flow reaches the backoff check without any close. -/
def ensure_connection_v2 (s : PollerState) (force_reconnect : Bool) (now : ℤ)
    (connectRes : Except Exc Handle) : Except EnsureErr Unit × PollerState :=
  if force_reconnect then
    ensure_attempt (close s) now connectRes
  else
    match s.powerwall with
    | some _ => (Except.ok (), s)
    | none => ensure_attempt s now connectRes

/-- The four aggregates returned by `powerwall.power()`, as consumed through
`power.get(...)` by the downstream writers. -/
structure PowerData where
  site : Option ℤ
  solar : Option ℤ
  battery : Option ℤ
  load : Option ℤ
  deriving Repr, DecidableEq

/-- What `fetch_snapshot` extracts from a dict returned by
`powerwall.status()`: the active alert list and the optional
`control.systemStatus` payload (kept only when truthy). -/
structure StatusData where
  alerts_active : List String
  system_status : Option String
  deriving Repr, DecidableEq

/-- What `fetch_snapshot` extracts from a dict returned by
`powerwall.vitals()`: the two `TEPOD--<din>` pack-energy floats located by
`_extract_float` (absent when the keys are missing or non-numeric). -/
structure VitalsData where
  pod_nom_energy_remaining : Option ℤ
  pod_nom_full_pack_energy : Option ℤ
  deriving Repr, DecidableEq

/-- The snapshot dictionary assembled by `fetch_snapshot`
(clients.py lines 277-361). -/
structure Snapshot where
  timestamp : ℤ
  site_name : Option String
  firmware : Option String
  din : Option String
  battery_percentage : Option ℤ
  power : Option PowerData
  grid_status : Option String
  alerts : List String
  system_status : Option String
  vitals : Option VitalsData
  battery_nominal_energy_remaining : Option ℤ
  battery_nominal_full_energy : Option ℤ
  deriving Repr, DecidableEq

/-- The reasons for which `fetch_snapshot` raises
`PowerwallUnavailableError`. -/
inductive UnavailKind where
  | backoffActive (remaining : ℤ)
  | connectFailed
  | authExhausted
  | readConnection
  | commError
  | authError

/-- An error escaping the body of `fetch_snapshot` before the outermost
`except` clauses run: either a `PowerwallUnavailableError` or some other
exception propagating raw. -/
inductive BodyErr where
  | unavail (u : UnavailKind)
  | raw (e : Exc)

/-- An error escaping `fetch_snapshot` itself. -/
inductive FetchErr where
  | unavailable (u : UnavailKind)
  | raw (e : Exc)

def ensure_to_body : EnsureErr → BodyErr
  | .backoffActive r => .unavail (.backoffActive r)
  | .connectFailed => .unavail .connectFailed
  | .raw e => .raw e

/-- Oracle inputs for one `fetch_snapshot` call: the monotonic clock, the
outcome each external call would produce if made (a second constructor
outcome and a second power read exist because the power read may force one
reconnection and one retry), and the values the `_safe_call`-guarded
identity reads would yield (already `None` when the underlying call would
raise). -/
structure FetchEnv where
  now : ℤ
  connect1 : Except Exc Handle
  connect2 : Except Exc Handle
  power1 : Except Exc PowerData
  power2 : Except Exc PowerData
  statusRes : Except Exc (Option StatusData)
  vitalsRes : Except Exc (Option VitalsData)
  site_name : Option String
  firmware : Option String
  din : Option String
  battery_percentage : Option ℤ
  grid_status : Option String

/-- The power read with its handler (clients.py lines 245-274): an
auth-classified failure still under the budget closes the session, forces
one reconnection and retries the read once (the retry is unguarded, so its
failure propagates to the outer handler); at the budget it raises
unavailability; a connection-classified failure raises unavailability; any
other failure degrades the read to `None`. -/
def fetch_power (s : PollerState) (env : FetchEnv) :
    Except BodyErr (Option PowerData) × PollerState :=
  match env.power1 with
  | .ok v => (Except.ok (some v), s)
  | .error exc =>
    match classify_read exc with
    | .auth =>
        if s.consecutive_auth_failures + 1 < s.max_auth_failures then
          match ensure_connection
              (close { s with consecutive_auth_failures := s.consecutive_auth_failures + 1 })
              true env.now env.connect2 with
          | (.error e, s3) => (Except.error (ensure_to_body e), s3)
          | (.ok _, s3) =>
            match env.power2 with
            | .ok v => (Except.ok (some v), s3)
            | .error e2 => (Except.error (.raw e2), s3)
        else
          (Except.error (.unavail .authExhausted),
           { s with consecutive_auth_failures := s.consecutive_auth_failures + 1 })
    | .conn => (Except.error (.unavail .readConnection), s)
    | .other => (Except.ok none, s)

/-- The status read with its handler (clients.py lines 290-313): an
auth-classified failure increments the counter and raises unavailability at
the budget, otherwise degrades the read to `None` — no reconnection and no
retry; a connection-classified failure raises unavailability; other
failures degrade to `None`.  A structurally successful but non-dict status
is carried as `Except.ok none`. -/
def fetch_status (s : PollerState) (env : FetchEnv) :
    Except BodyErr (Option StatusData) × PollerState :=
  match env.statusRes with
  | .ok st => (Except.ok st, s)
  | .error exc =>
    match classify_read exc with
    | .auth =>
        if s.consecutive_auth_failures + 1 ≥ s.max_auth_failures then
          (Except.error (.unavail .authExhausted),
           { s with consecutive_auth_failures := s.consecutive_auth_failures + 1 })
        else
          (Except.ok none,
           { s with consecutive_auth_failures := s.consecutive_auth_failures + 1 })
    | .conn => (Except.error (.unavail .readConnection), s)
    | .other => (Except.ok none, s)

/-- The vitals read with its handler (clients.py lines 326-349), identical
in shape to the status handler. -/
def fetch_vitals (s : PollerState) (env : FetchEnv) :
    Except BodyErr (Option VitalsData) × PollerState :=
  match env.vitalsRes with
  | .ok vt => (Except.ok vt, s)
  | .error exc =>
    match classify_read exc with
    | .auth =>
        if s.consecutive_auth_failures + 1 ≥ s.max_auth_failures then
          (Except.error (.unavail .authExhausted),
           { s with consecutive_auth_failures := s.consecutive_auth_failures + 1 })
        else
          (Except.ok none,
           { s with consecutive_auth_failures := s.consecutive_auth_failures + 1 })
    | .conn => (Except.error (.unavail .readConnection), s)
    | .other => (Except.ok none, s)

/-- Assembly of the snapshot dictionary (clients.py lines 277-361): the
identity fields come from `_safe_call`-guarded reads, alerts default to the
empty list when status is absent or not a dict, `system_status` is kept
only when truthy, and the two battery-energy fields are extracted from
vitals when present. -/
def build_snapshot (env : FetchEnv) (pv : Option PowerData)
    (st : Option StatusData) (vt : Option VitalsData) : Snapshot :=
  { timestamp := env.now
    site_name := env.site_name
    firmware := env.firmware
    din := env.din
    battery_percentage := env.battery_percentage
    power := pv
    grid_status := env.grid_status
    alerts := match st with
      | some sd => sd.alerts_active
      | none => []
    system_status := st.bind (fun sd => sd.system_status)
    vitals := vt
    battery_nominal_energy_remaining := vt.bind (fun v => v.pod_nom_energy_remaining)
    battery_nominal_full_energy := vt.bind (fun v => v.pod_nom_full_pack_energy) }

/-- The `try` body of `fetch_snapshot` (clients.py lines 240-368):
ensure a connection, run the three guarded reads, assemble the snapshot and
reset the auth-failure counter on success. -/
def fetch_body (s : PollerState) (env : FetchEnv) : Except BodyErr Snapshot × PollerState :=
  match ensure_connection s (s.consecutive_auth_failures ≥ s.max_auth_failures)
      env.now env.connect1 with
  | (.error e, s1) => (Except.error (ensure_to_body e), s1)
  | (.ok _, s1) =>
    match fetch_power s1 env with
    | (.error e, s2) => (Except.error e, s2)
    | (.ok pv, s2) =>
      match fetch_status s2 env with
      | (.error e, s3) => (Except.error e, s3)
      | (.ok st, s3) =>
        match fetch_vitals s3 env with
        | (.error e, s4) => (Except.error e, s4)
        | (.ok vt, s4) =>
          (Except.ok (build_snapshot env pv st vt),
           { s4 with consecutive_auth_failures := 0 })

/-- The outermost `except` clauses of `fetch_snapshot` (clients.py lines
370-387): a `PowerwallUnavailableError` is closed and re-raised; a raw
connection-classified exception is closed and wrapped; a raw
auth-classified exception increments the counter, closes and wraps; any
other raw exception propagates unchanged with no close. -/
def outer_handler (r : Except BodyErr Snapshot × PollerState) :
    Except FetchErr Snapshot × PollerState :=
  match r with
  | (.ok snap, s) => (Except.ok snap, s)
  | (.error (.unavail u), s) => (Except.error (.unavailable u), close s)
  | (.error (.raw e), s) =>
    match classify_outer e with
    | .conn => (Except.error (.unavailable .commError), close s)
    | .auth =>
        (Except.error (.unavailable .authError),
         close { s with consecutive_auth_failures := s.consecutive_auth_failures + 1 })
    | .other => (Except.error (.raw e), s)

/-- `PowerwallPoller.fetch_snapshot` (clients.py lines 222-387). -/
def fetch_snapshot (s : PollerState) (env : FetchEnv) :
    Except FetchErr Snapshot × PollerState :=
  outer_handler (fetch_body s env)

/-- The message string attached to a fetch failure, as `_poll_once_blocking`
records it (`str(exc)` for an unavailability error, an
"unexpected error" text otherwise). -/
def fetch_err_message : FetchErr → String
  | .unavailable _ => "powerwall unavailable"
  | .raw _ => "unexpected error"

/-- `connect_to_wifi` (connect_wifi.py lines 124-184) reports `False` when
already associated, `True` when it performed a new association, and raises
`WiFiConnectionError` otherwise; its outcome is an oracle input here. -/
abbrev WifiResult := Except String Bool

/-- `maybe_connect_wifi` (clients.py lines 734-752).  Declared `-> None`:
it skips when the feature is off or no SSID is configured, re-raises a
`WiFiConnectionError` from `connect_to_wifi`, and otherwise falls off the
end — the boolean `connect_to_wifi` returns is discarded and the caller
receives Python `None` in every non-raising case. -/
def maybe_connect_wifi (connect_wifi : Bool) (wifi_ssid : Option String)
    (wifiRes : WifiResult) : Except String (Option Bool) :=
  if ¬ connect_wifi then Except.ok none
  else
    match wifi_ssid with
    | none => Except.ok none
    | some _ =>
      match wifiRes with
      | .ok _ => Except.ok none
      | .error m => Except.error m

/-- Python truthiness of the value bound to `wifi_reconnected` in
`_handle_powerwall_failure`: `None` and `False` are falsy, `True` is
truthy. -/
def truthy : Option Bool → Bool
  | none => false
  | some b => b

/-- `PollingResult` (service.py lines 34-43). -/
structure PollingResult where
  timestamp : ℤ
  duration : ℤ
  snapshot : Option Snapshot
  powerwall_error : Option String
  influx_error : Option String
  mqtt_error : Option String
  pushed_influx : Bool
  published_mqtt : Bool
  deriving Repr, DecidableEq

/-- The derived `PollingResult.success` property (service.py lines 45-47):
`snapshot is not None and powerwall_error is None`. -/
def PollingResult.success (r : PollingResult) : Bool :=
  r.snapshot.isSome && r.powerwall_error.isNone

/-- The mutable fields of `PowerwallService` that the polling cycle touches
(service.py lines 63-103): the owned poller, the last-result slot, the
failure counter, success timestamps and the Wi-Fi retry throttle. -/
structure ServiceState where
  poller : PollerState
  last_result : Option PollingResult
  consecutive_failures : Nat
  last_success_at : Option ℤ
  last_influx_success : Option ℤ
  last_mqtt_success : Option ℤ
  last_wifi_error : Option String
  wifi_retry_seconds : ℤ
  last_wifi_attempt : ℤ

/-- Configuration and oracle inputs for one blocking poll cycle: the fetch
oracles, the outcome of `build_line` (`none` when the snapshot yields no
fields), the Influx write and MQTT publish outcomes, the Wi-Fi
configuration and rejoin outcome, and the clock. -/
structure PollEnv where
  fetchEnv : FetchEnv
  line : Option String
  writeRes : Except String Unit
  mqttEnabled : Bool
  mqttRes : Except String Unit
  connect_wifi : Bool
  wifi_ssid : Option String
  wifiRes : WifiResult
  now : ℤ

/-- `_handle_powerwall_failure` (service.py lines 356-402): when Wi-Fi
auto-connect is on and the throttle interval has elapsed, invoke
`maybe_connect_wifi`; reset the connection-failure counter of the poller and
backoff timestamp only when the bound result is truthy and failures are
positive; record a rejoin failure; update the throttle timestamp in the
`finally` block after every invocation. -/
def handle_powerwall_failure (svc : ServiceState) (env : PollEnv) : ServiceState :=
  if env.connect_wifi then
    if env.now - svc.last_wifi_attempt ≥ svc.wifi_retry_seconds then
      match maybe_connect_wifi env.connect_wifi env.wifi_ssid env.wifiRes with
      | .ok wifi_reconnected =>
          let svc1 := { svc with last_wifi_error := none }
          let svc2 :=
            if truthy wifi_reconnected ∧
                svc1.poller.consecutive_connection_failures > 0 then
              { svc1 with poller :=
                  { svc1.poller with consecutive_connection_failures := 0
                                     last_connection_attempt := 0 } }
            else svc1
          { svc2 with last_wifi_attempt := env.now }
      | .error m =>
          { svc with last_wifi_error := some m, last_wifi_attempt := env.now }
    else svc
  else svc

/-- `_poll_once_blocking` (service.py lines 279-333): fetch a snapshot; on
failure record the device error and run the failure handler; on success
optionally build and write the store line (write failure recorded as the
store error) and optionally publish to the bus (failure recorded as the bus
error); finally apply the `snapshot is None and powerwall_error is None`
fallback and assemble the `PollingResult`. -/
def poll_once_blocking (svc : ServiceState) (push_to_influx publish_mqtt : Bool)
    (env : PollEnv) : PollingResult × ServiceState :=
  match fetch_snapshot svc.poller env.fetchEnv with
  | (.error fe, p1) =>
      let msg := fetch_err_message fe
      let svc1 := handle_powerwall_failure { svc with poller := p1 } env
      let pw_err : Option String :=
        if (none : Option Snapshot).isNone ∧ (some msg).isNone then
          some "snapshot unavailable"
        else some msg
      ({ timestamp := env.now
         duration := 0
         snapshot := none
         powerwall_error := pw_err
         influx_error := none
         mqtt_error := none
         pushed_influx := false
         published_mqtt := false }, svc1)
  | (.ok snap, p1) =>
      let svc1 := { svc with poller := p1 }
      let influx : Option String × Bool :=
        if push_to_influx then
          match env.line with
          | none => (none, false)
          | some _ =>
            match env.writeRes with
            | .ok _ => (none, true)
            | .error m => (some m, false)
        else (none, false)
      let mqtt : Option String × Bool :=
        if publish_mqtt ∧ env.mqttEnabled then
          match env.mqttRes with
          | .ok _ => (none, true)
          | .error m => (some m, false)
        else (none, false)
      let pw_err : Option String :=
        if (some snap).isNone ∧ (none : Option String).isNone then
          some "snapshot unavailable"
        else none
      ({ timestamp := env.now
         duration := 0
         snapshot := some snap
         powerwall_error := pw_err
         influx_error := influx.1
         mqtt_error := mqtt.1
         pushed_influx := influx.2
         published_mqtt := mqtt.2 }, svc1)

/-- `_update_state` (service.py lines 335-351): store the result, reset the
consecutive-failure counter and record the success time on success,
increment it on failure, and record sink success timestamps. -/
def update_state (svc : ServiceState) (r : PollingResult) : ServiceState :=
  let svc1 := { svc with last_result := some r }
  let svc2 :=
    if r.success then
      { svc1 with last_success_at := some r.timestamp, consecutive_failures := 0 }
    else { svc1 with consecutive_failures := svc1.consecutive_failures + 1 }
  let svc3 :=
    if r.pushed_influx then { svc2 with last_influx_success := some r.timestamp }
    else svc2
  if r.published_mqtt then { svc3 with last_mqtt_success := some r.timestamp }
  else svc3

/-- Modelled from the spec (section 3 invariant): a Snapshot is "valid" only
if at least one core field — the power quad or the battery percentage — is
present.  The source contains no such predicate; this definition exists
solely to state claims about the missing validation. -/
def spec_snapshot_valid (sn : Snapshot) : Bool :=
  sn.power.isSome || sn.battery_percentage.isSome

/-! Concrete fixtures used by counterexamples and witnesses. -/

/-- A healthy power reading. -/
def powerQuadBase : PowerData :=
  { site := some 100, solar := some 2500, battery := some (-300), load := some 2300 }

/-- A fetch environment in which every external call succeeds. -/
def envBase : FetchEnv :=
  { now := 1000
    connect1 := Except.ok ⟨true⟩
    connect2 := Except.ok ⟨true⟩
    power1 := Except.ok powerQuadBase
    power2 := Except.ok powerQuadBase
    statusRes := Except.ok (some { alerts_active := [], system_status := none })
    vitalsRes := Except.ok none
    site_name := some "Home"
    firmware := some "fw"
    din := some "1232100"
    battery_percentage := some 55
    grid_status := some "UP"
    }

/-- A fetch environment in which every read the device answers is empty:
the power read fails unclassified, status and vitals come back as
non-dicts, and every identity read yields nothing. -/
def envTrivial : FetchEnv :=
  { now := 0
    connect1 := Except.ok ⟨true⟩
    connect2 := Except.ok ⟨true⟩
    power1 := Except.error excOther
    power2 := Except.error excOther
    statusRes := Except.ok none
    vitalsRes := Except.ok none
    site_name := none
    firmware := none
    din := none
    battery_percentage := none
    grid_status := none }

/-- The snapshot `fetch_snapshot` assembles from `envTrivial`: every field
empty — no power quad, no battery percentage, no identity. -/
def trivialSnap : Snapshot :=
  { timestamp := 0
    site_name := none
    firmware := none
    din := none
    battery_percentage := none
    power := none
    grid_status := none
    alerts := []
    system_status := none
    vitals := none
    battery_nominal_energy_remaining := none
    battery_nominal_full_energy := none }

/-- The service state right after `PowerwallService.__init__`. -/
def ServiceState.init : ServiceState :=
  { poller := PollerState.init
    last_result := none
    consecutive_failures := 0
    last_success_at := none
    last_influx_success := none
    last_mqtt_success := none
    last_wifi_error := none
    wifi_retry_seconds := 300
    last_wifi_attempt := 0 }

/-- A poll environment with Wi-Fi auto-connect off and every sink
succeeding. -/
def pollEnvBase : PollEnv :=
  { fetchEnv := envBase
    line := some "pw line"
    writeRes := Except.ok ()
    mqttEnabled := false
    mqttRes := Except.ok ()
    connect_wifi := false
    wifi_ssid := none
    wifiRes := Except.ok false
    now := 1000 }

/-- The poller state of a gateway that has been down for a while: five
consecutive connection failures, last attempted at t=100. -/
def pollerDown : PollerState :=
  { PollerState.init with consecutive_connection_failures := 5
                          last_connection_attempt := 100 }

/-- Service state for the Wi-Fi rejoin scenario: the gateway is down and the
rejoin throttle has long expired. -/
def svcDown : ServiceState :=
  { ServiceState.init with poller := pollerDown }

/-- Poll environment for the Wi-Fi rejoin scenario: auto-connect enabled,
SSID configured, and `connect_to_wifi` would report that it performed a new
association. -/
def pollEnvRejoin : PollEnv :=
  { pollEnvBase with connect_wifi := true
                     wifi_ssid := some "TeslaPW"
                     wifiRes := Except.ok true
                     now := 400 }

/-- A fetch environment in which only the status read fails, with an
auth-classified error. -/
def envC4 : FetchEnv := { envBase with statusRes := Except.error excAuthMsg }

/-- The poller state after the forced client recreation in the power-read
auth-retry path: the close reset both generation-local counters, the
successful reconnect installed the fresh handle and consumed one
constructor call. -/
def after_forced_refresh (s : PollerState) (h2 : Handle) : PollerState :=
  { s with powerwall := some h2
           consecutive_auth_failures := 0
           consecutive_connection_failures := 0
           attempts := s.attempts + 1 }

/-- The closed poller state a connection-refused first fetch leaves
behind: one recorded connection failure stamped at t=1000, no handle. -/
def sC10 : PollerState :=
  { PollerState.init with consecutive_connection_failures := 1
                          last_connection_attempt := 1000
                          attempts := 1 }

/-- Entry state for the backoff-rejection scenario: no live handle, two
recorded auth failures, one connection failure last attempted at t=100. -/
def sC6 : PollerState :=
  { PollerState.init with consecutive_auth_failures := 2
                          consecutive_connection_failures := 1
                          last_connection_attempt := 100 }

/-- The state the backoff rejection leaves behind: identical except that
the entry close() has reset the auth-failure counter. -/
def sC6r : PollerState :=
  { PollerState.init with consecutive_auth_failures := 0
                          consecutive_connection_failures := 1
                          last_connection_attempt := 100 }

/-! Helper lemmas. -/

theorem maybe_connect_wifi_ok_none {c : Bool} {ssid : Option String}
    {w : WifiResult} {v : Option Bool}
    (h : maybe_connect_wifi c ssid w = Except.ok v) : v = none := by
  unfold maybe_connect_wifi at h
  split at h
  · cases h; rfl
  · cases ssid with
    | none => cases h; rfl
    | some _ =>
      cases w with
      | ok _ => cases h; rfl
      | error _ => cases h

theorem ensure_attempt_backoff_inv {s : PollerState} {now : ℤ}
    {res : Except Exc Handle} {r : ℤ} {s' : PollerState}
    (h : ensure_attempt s now res = (Except.error (EnsureErr.backoffActive r), s')) :
    s' = s ∧ r = backoff_time s - (now - s.last_connection_attempt) := by
  unfold ensure_attempt at h
  split at h
  · rw [Prod.mk.injEq] at h
    obtain ⟨h1, h2⟩ := h
    rw [Except.error.injEq, EnsureErr.backoffActive.injEq] at h1
    exact ⟨h2.symm, h1.symm⟩
  · cases res with
    | ok _ => simp at h
    | error e =>
      dsimp only at h
      split at h <;> simp at h

end Powerwall

namespace Powerwall

/-- Claim C5: for every n of at least 1 consecutive connection failures
with no intervening success, the backoff computed by ensureConnection
equals min(30 * 2^(n-1), 300) seconds, with default backoffBase 30 s and
backoffCap 300 s.  The second conjunct resolves the min: the cap binds
exactly from the fifth failure on. -/
theorem C5_backoff_formula (n : Nat) (h : 1 ≤ n) :
    backoff_time { PollerState.init with consecutive_connection_failures := n } =
      min ((30 : ℤ) * 2 ^ (n - 1)) 300 ∧
    backoff_time { PollerState.init with consecutive_connection_failures := n } =
      (if n ≤ 4 then (30 : ℤ) * 2 ^ (n - 1) else 300) := by
  have hb : backoff_time { PollerState.init with consecutive_connection_failures := n } =
      min ((30 : ℤ) * 2 ^ (n - 1)) 300 := by
    simp [backoff_time, pymin, PollerState.init, min_def]
  refine ⟨hb, ?_⟩
  rw [hb]
  by_cases hn : n ≤ 4
  · simp only [hn, if_true]
    refine min_eq_left ?_
    have h2 : (2 : ℤ) ^ (n - 1) ≤ 8 := by
      calc (2 : ℤ) ^ (n - 1) ≤ 2 ^ 3 := pow_le_pow_right₀ (by norm_num) (by omega)
        _ = 8 := by norm_num
    nlinarith
  · simp only [hn, if_false]
    refine min_eq_right ?_
    have h2 : (16 : ℤ) ≤ 2 ^ (n - 1) := by
      calc (16 : ℤ) = 2 ^ 4 := by norm_num
        _ ≤ 2 ^ (n - 1) := pow_le_pow_right₀ (by norm_num) (by omega)
    nlinarith

/-- Witness for C5 at n = 5: the cap binds, min(480, 300) = 300. -/
theorem C5_backoff_formula_witness :
    backoff_time { PollerState.init with consecutive_connection_failures := 5 } =
      min ((30 : ℤ) * 2 ^ (5 - 1)) 300 ∧
    backoff_time { PollerState.init with consecutive_connection_failures := 5 } =
      (if 5 ≤ 4 then (30 : ℤ) * 2 ^ (5 - 1) else 300) :=
  C5_backoff_formula 5 (by norm_num)

/-- Claim C7 as stated is false: an HTTP transport error with status 403
carries both the connection and the auth signal, yet the per-read handlers
of fetch_snapshot test auth first and consume it as an Auth failure — here
the status read increments the auth counter and degrades instead of
raising a connection-classified unavailability. -/
theorem C7_counterexample :
    is_connection_error exc403 = true ∧
    is_auth_error exc403 = true ∧
    classify_read exc403 = FailureClass.auth ∧
    fetch_status PollerState.init { envBase with statusRes := Except.error exc403 } =
      (Except.ok none,
       { PollerState.init with consecutive_auth_failures := 1 }) := by
  refine ⟨rfl, rfl, rfl, rfl⟩

/-- Claim C7 amended: an error carrying the auth signal resolves as Auth at
the per-read sites (auth is tested first there), while the outermost
fetch_snapshot handler tests connection first, so ties resolve
Connection > Auth only at that site. -/
theorem C7_amended :
    (∀ e : Exc, is_auth_error e = true → classify_read e = FailureClass.auth) ∧
    (∀ e : Exc, is_connection_error e = true →
      classify_outer e = FailureClass.conn) := by
  constructor
  · intro e h
    simp [classify_read, h]
  · intro e h
    simp [classify_outer, h]

/-- Witness for C7 amended at the dual-signal 403 error and at a pure
connection error. -/
theorem C7_amended_witness :
    classify_read exc403 = FailureClass.auth ∧
    classify_outer excConnRefused = FailureClass.conn :=
  ⟨C7_amended.1 exc403 (by decide), C7_amended.2 excConnRefused (by decide)⟩

/-- Claim C3 as stated is false: with a live handle and no force requested,
the decision branches on the is_connected() probe of the handle.  Two states
identical except for the probe value: the connected one returns
immediately with the state untouched, the disconnected one invokes the
constructor (one more attempt). -/
theorem C3_counterexample :
    ensure_connection { PollerState.init with powerwall := some ⟨true⟩ }
        false 1000 (Except.ok ⟨true⟩) =
      (Except.ok (), { PollerState.init with powerwall := some ⟨true⟩ }) ∧
    (ensure_connection { PollerState.init with powerwall := some ⟨false⟩ }
        false 1000 (Except.ok ⟨true⟩)).2.attempts =
      ({ PollerState.init with powerwall := some ⟨false⟩ } : PollerState).attempts + 1 := by
  exact ⟨rfl, rfl⟩

/-- Claim C3 amended: in clients.py the immediate return on a live handle
additionally requires the is_connected() probe of the handle to report true;
the refactored variant in powerwall_client.py returns immediately on any
live handle without consulting the probe, as the claim describes. -/
theorem C3_amended :
    (∀ (s : PollerState) (now : ℤ) (res : Except Exc Handle) (h : Handle),
      s.powerwall = some h → h.is_connected = true →
      ensure_connection s false now res = (Except.ok (), s)) ∧
    (∀ (s : PollerState) (now : ℤ) (res : Except Exc Handle) (h : Handle),
      s.powerwall = some h →
      ensure_connection_v2 s false now res = (Except.ok (), s)) := by
  constructor
  · intro s now res h hpw hconn
    unfold ensure_connection
    rw [hpw]
    simp [hconn]
  · intro s now res h hpw
    unfold ensure_connection_v2
    rw [hpw]
    simp

/-- Witness for C3 amended: a live connected handle short-circuits in the
clients.py version, any live handle short-circuits in the
powerwall_client.py version. -/
theorem C3_amended_witness :
    ensure_connection { PollerState.init with powerwall := some ⟨true⟩ }
        false 1000 (Except.ok ⟨true⟩) =
      (Except.ok (), { PollerState.init with powerwall := some ⟨true⟩ }) ∧
    ensure_connection_v2 { PollerState.init with powerwall := some ⟨false⟩ }
        false 1000 (Except.ok ⟨true⟩) =
      (Except.ok (), { PollerState.init with powerwall := some ⟨false⟩ }) :=
  ⟨C3_amended.1 _ 1000 _ ⟨true⟩ rfl rfl, C3_amended.2 _ 1000 _ ⟨false⟩ rfl⟩

/-- Claim C6 as stated is false: a backoff rejection does leave the
connection-failure counter and the attempt timestamp unchanged, but with
no live handle the entry path runs close() before the backoff check, which
resets consecutiveAuthFailures — here from 2 to 0. -/
theorem C6_counterexample :
    ensure_connection sC6 false 110 (Except.ok ⟨true⟩) =
      (Except.error (EnsureErr.backoffActive 20), sC6r) ∧
    sC6.consecutive_auth_failures = 2 ∧ sC6r.consecutive_auth_failures = 0 := by
  refine ⟨?_, rfl, rfl⟩
  rfl

/-- Claim C6 amended: a backoff-rejected call makes no connection attempt,
raises the unavailability error carrying the remaining wait, and leaves
consecutiveConnectionFailures and lastAttemptTime unchanged; but
consecutiveAuthFailures survives only when a live handle was present
without force — when force_reconnect is set or no handle exists, the
session close on entry has already reset it to 0. -/
theorem C6_amended (s : PollerState) (force : Bool) (now r : ℤ)
    (res : Except Exc Handle) (s' : PollerState)
    (h : ensure_connection s force now res =
      (Except.error (EnsureErr.backoffActive r), s')) :
    s'.consecutive_connection_failures = s.consecutive_connection_failures ∧
    s'.last_connection_attempt = s.last_connection_attempt ∧
    s'.attempts = s.attempts ∧
    r = backoff_time s - (now - s.last_connection_attempt) ∧
    s'.consecutive_auth_failures =
      (if force = true ∨ s.powerwall = none then 0
       else s.consecutive_auth_failures) := by
  unfold ensure_connection at h
  split at h
  · rename_i hf
    obtain ⟨h1, h2⟩ := ensure_attempt_backoff_inv h
    subst h1
    refine ⟨rfl, rfl, rfl, h2, ?_⟩
    simp [close, hf]
  · rename_i hf
    split at h
    · rename_i hd hpw
      split at h
      · simp at h
      · rename_i hconn
        obtain ⟨h1, h2⟩ := ensure_attempt_backoff_inv h
        subst h1
        refine ⟨rfl, rfl, rfl, h2, ?_⟩
        simp only [hpw]
        simp [hf]
    · rename_i hpw
      obtain ⟨h1, h2⟩ := ensure_attempt_backoff_inv h
      subst h1
      refine ⟨rfl, rfl, rfl, h2, ?_⟩
      simp [close, hpw]

/-- Witness for C6 amended at the concrete backoff rejection from the
counterexample state: the remaining wait carried by the error is indeed
backoff minus elapsed time. -/
theorem C6_amended_witness :
    (20 : ℤ) = backoff_time sC6 - (110 - sC6.last_connection_attempt) :=
  (C6_amended sC6 false 110 20 (Except.ok ⟨true⟩) sC6r (by rfl)).2.2.2.1

/-- Claim C1 is the intended behavior but the code never delivers it: the
reset branch in handle_powerwall_failure is dead, because
maybe_connect_wifi discards the boolean connect_to_wifi returns and always
hands the caller Python None.  First conjunct: for every service state and
environment the connection-failure counter and backoff timestamp survive
the handler unchanged.  Second and third conjuncts evaluate the failing
input: the rejoin performs a new association, yet the five recorded
failures and the backoff timestamp remain. -/
theorem C1_wifi_reset_dead :
    (∀ (svc : ServiceState) (env : PollEnv),
      (handle_powerwall_failure svc env).poller.consecutive_connection_failures =
        svc.poller.consecutive_connection_failures ∧
      (handle_powerwall_failure svc env).poller.last_connection_attempt =
        svc.poller.last_connection_attempt) ∧
    maybe_connect_wifi true (some "TeslaPW") (Except.ok true) = Except.ok none ∧
    handle_powerwall_failure svcDown pollEnvRejoin =
      { svcDown with last_wifi_attempt := 400 } := by
  refine ⟨?_, rfl, rfl⟩
  intro svc env
  unfold handle_powerwall_failure
  split
  · split
    · cases hm : maybe_connect_wifi env.connect_wifi env.wifi_ssid env.wifiRes with
      | ok v =>
        have hv := maybe_connect_wifi_ok_none hm
        subst hv
        simp [hm, truthy]
      | error m => simp [hm]
    · exact ⟨rfl, rfl⟩
  · exact ⟨rfl, rfl⟩

/-- Claim C2 as stated is false: fetch_snapshot performs no non-triviality
validation.  With every read empty it returns an all-empty snapshot — no
power quad, no battery percentage, no identity — as a success, and the
poll cycle built on it reports success with no device error. -/
theorem C2_counterexample :
    fetch_snapshot PollerState.init envTrivial =
      (Except.ok trivialSnap,
       { PollerState.init with powerwall := some ⟨true⟩, attempts := 1 }) ∧
    spec_snapshot_valid trivialSnap = false ∧
    (poll_once_blocking ServiceState.init true true
        { pollEnvBase with fetchEnv := envTrivial }).1.success = true ∧
    (poll_once_blocking ServiceState.init true true
        { pollEnvBase with fetchEnv := envTrivial }).1.powerwall_error = none := by
  exact ⟨rfl, rfl, rfl, rfl⟩

/-- Claim C2 amended: every snapshot the fetch assembles is returned as a
success, even one that fails the validity invariant of the spec; the only
service-side fallback (the "snapshot unavailable" error) requires a missing
snapshot with no recorded error, which a returned snapshot never
triggers. -/
theorem C2_amended (svc : ServiceState) (push publish : Bool) (env : PollEnv)
    (snap : Snapshot) (p1 : PollerState)
    (_hinvalid : spec_snapshot_valid snap = false)
    (hfetch : fetch_snapshot svc.poller env.fetchEnv = (Except.ok snap, p1)) :
    (poll_once_blocking svc push publish env).1.success = true ∧
    (poll_once_blocking svc push publish env).1.snapshot = some snap ∧
    (poll_once_blocking svc push publish env).1.powerwall_error = none := by
  unfold poll_once_blocking
  rw [hfetch]
  simp [PollingResult.success]

/-- Witness for C2 amended at the all-empty snapshot. -/
theorem C2_amended_witness :
    (poll_once_blocking ServiceState.init true true
        { pollEnvBase with fetchEnv := envTrivial }).1.success = true ∧
    (poll_once_blocking ServiceState.init true true
        { pollEnvBase with fetchEnv := envTrivial }).1.snapshot = some trivialSnap ∧
    (poll_once_blocking ServiceState.init true true
        { pollEnvBase with fetchEnv := envTrivial }).1.powerwall_error = none :=
  C2_amended ServiceState.init true true { pollEnvBase with fetchEnv := envTrivial }
    trivialSnap { PollerState.init with powerwall := some ⟨true⟩, attempts := 1 }
    (by decide) (by rfl)

/-- Claim C4 as stated is false: the refresh-and-retry treatment is not
applied to each of the three reads.  Here the status read fails with an
auth-classified error while the counter (1/3) is under the budget, yet no
forced session refresh happens (exactly one constructor call in the whole
fetch) and the poll succeeds rather than standing or falling with a
retry. -/
theorem C4_counterexample :
    fetch_snapshot PollerState.init envC4 =
      (Except.ok (build_snapshot envC4 (some powerQuadBase) none none),
       { PollerState.init with powerwall := some ⟨true⟩, attempts := 1 }) ∧
    is_auth_error excAuthMsg = true ∧
    ({ PollerState.init with powerwall := some ⟨true⟩, attempts := 1 } :
        PollerState).attempts = PollerState.init.attempts + 1 := by
  exact ⟨rfl, rfl, rfl⟩

/-- Claim C4 amended: only the power read gets the forced refresh and the
single retry (first conjunct; note the close resets the auth counter to 0
before the retry, and the outcome of the retry decides the read — its failure
propagates and fails the poll); an under-budget auth failure on the status
or vitals read degrades that read to absent with no refresh and no retry
(second and third conjuncts); once the incremented counter reaches the
budget, each of the power, status and vitals reads raises unavailability
immediately with no retry (fourth, fifth and sixth conjuncts). -/
theorem C4_amended :
    (∀ (s : PollerState) (env : FetchEnv) (e : Exc) (h2 : Handle),
      env.power1 = Except.error e → classify_read e = FailureClass.auth →
      s.consecutive_auth_failures + 1 < s.max_auth_failures →
      s.consecutive_connection_failures = 0 →
      env.connect2 = Except.ok h2 →
      fetch_power s env =
        (match env.power2 with
         | .ok v => (Except.ok (some v), after_forced_refresh s h2)
         | .error e2 => (Except.error (.raw e2), after_forced_refresh s h2))) ∧
    (∀ (s : PollerState) (env : FetchEnv) (e : Exc),
      env.statusRes = Except.error e → classify_read e = FailureClass.auth →
      s.consecutive_auth_failures + 1 < s.max_auth_failures →
      fetch_status s env =
        (Except.ok none,
         { s with consecutive_auth_failures := s.consecutive_auth_failures + 1 })) ∧
    (∀ (s : PollerState) (env : FetchEnv) (e : Exc),
      env.vitalsRes = Except.error e → classify_read e = FailureClass.auth →
      s.consecutive_auth_failures + 1 < s.max_auth_failures →
      fetch_vitals s env =
        (Except.ok none,
         { s with consecutive_auth_failures := s.consecutive_auth_failures + 1 })) ∧
    (∀ (s : PollerState) (env : FetchEnv) (e : Exc),
      env.power1 = Except.error e → classify_read e = FailureClass.auth →
      s.consecutive_auth_failures + 1 ≥ s.max_auth_failures →
      fetch_power s env =
        (Except.error (.unavail .authExhausted),
         { s with consecutive_auth_failures := s.consecutive_auth_failures + 1 })) ∧
    (∀ (s : PollerState) (env : FetchEnv) (e : Exc),
      env.statusRes = Except.error e → classify_read e = FailureClass.auth →
      s.consecutive_auth_failures + 1 ≥ s.max_auth_failures →
      fetch_status s env =
        (Except.error (.unavail .authExhausted),
         { s with consecutive_auth_failures := s.consecutive_auth_failures + 1 })) ∧
    (∀ (s : PollerState) (env : FetchEnv) (e : Exc),
      env.vitalsRes = Except.error e → classify_read e = FailureClass.auth →
      s.consecutive_auth_failures + 1 ≥ s.max_auth_failures →
      fetch_vitals s env =
        (Except.error (.unavail .authExhausted),
         { s with consecutive_auth_failures := s.consecutive_auth_failures + 1 })) := by
  refine ⟨?_, ?_, ?_, ?_, ?_, ?_⟩
  · intro s env e h2 hp1 hcls hunder hconn hc2
    unfold fetch_power
    rw [hp1]
    simp only [hcls]
    rw [if_pos (by simpa using hunder)]
    have hens : ensure_connection
        (close { s with consecutive_auth_failures := s.consecutive_auth_failures + 1 })
        true env.now env.connect2 =
        (Except.ok (), after_forced_refresh s h2) := by
      rw [hc2]
      unfold ensure_connection ensure_attempt
      simp [close, after_forced_refresh, hconn]
    rw [hens]
  · intro s env e hst hcls hunder
    unfold fetch_status
    rw [hst]
    simp only [hcls]
    rw [if_neg (by simpa using Nat.not_le.mpr hunder)]
  · intro s env e hvt hcls hunder
    unfold fetch_vitals
    rw [hvt]
    simp only [hcls]
    rw [if_neg (by simpa using Nat.not_le.mpr hunder)]
  · intro s env e hp1 hcls hover
    unfold fetch_power
    rw [hp1]
    simp only [hcls]
    rw [if_neg (by simpa using Nat.not_lt.mpr hover)]
  · intro s env e hst hcls hover
    unfold fetch_status
    rw [hst]
    simp only [hcls]
    rw [if_pos (by simpa using hover)]
  · intro s env e hvt hcls hover
    unfold fetch_vitals
    rw [hvt]
    simp only [hcls]
    rw [if_pos (by simpa using hover)]

/-- Witness for C4 amended: the power-read retry at a concrete
environment (retry succeeds), the status and vitals degradations, and the
exhausted-budget rejections at each read for a poller that somehow
accumulated two auth failures. -/
theorem C4_amended_witness :
    fetch_power { PollerState.init with powerwall := some ⟨true⟩ }
        { envBase with power1 := Except.error excAuthMsg } =
      (Except.ok (some powerQuadBase),
       after_forced_refresh { PollerState.init with powerwall := some ⟨true⟩ } ⟨true⟩) ∧
    fetch_status PollerState.init envC4 =
      (Except.ok none, { PollerState.init with consecutive_auth_failures := 1 }) ∧
    fetch_vitals PollerState.init { envBase with vitalsRes := Except.error excAuthMsg } =
      (Except.ok none, { PollerState.init with consecutive_auth_failures := 1 }) ∧
    fetch_power { PollerState.init with consecutive_auth_failures := 2 }
        { envBase with power1 := Except.error excAuthMsg } =
      (Except.error (.unavail .authExhausted),
       { PollerState.init with consecutive_auth_failures := 3 }) ∧
    fetch_status { PollerState.init with consecutive_auth_failures := 2 } envC4 =
      (Except.error (.unavail .authExhausted),
       { PollerState.init with consecutive_auth_failures := 3 }) ∧
    fetch_vitals { PollerState.init with consecutive_auth_failures := 2 }
        { envBase with vitalsRes := Except.error excAuthMsg } =
      (Except.error (.unavail .authExhausted),
       { PollerState.init with consecutive_auth_failures := 3 }) := by
  refine ⟨?_, ?_, ?_, ?_, ?_, ?_⟩
  · exact C4_amended.1 _ _ excAuthMsg ⟨true⟩ rfl rfl (by decide) rfl rfl
  · exact C4_amended.2.1 _ _ excAuthMsg rfl rfl (by decide)
  · exact C4_amended.2.2.1 _ _ excAuthMsg rfl rfl (by decide)
  · exact C4_amended.2.2.2.1 _ _ excAuthMsg rfl rfl (by decide)
  · exact C4_amended.2.2.2.2.1 _ _ excAuthMsg rfl rfl (by decide)
  · exact C4_amended.2.2.2.2.2 _ _ excAuthMsg rfl rfl (by decide)

/-- Claim C8: a device success with a sink failure still counts as a
successful poll.  First conjunct: a failing store write leaves success
true, the snapshot present, no device error, the write failure recorded as
the distinct store-error detail, and storing the result resets the
consecutive-failure counter to 0.  Second conjunct: the same for a failing
bus publish. -/
theorem C8_sink_isolation :
    (∀ (svc : ServiceState) (publish : Bool) (env : PollEnv) (snap : Snapshot)
        (p1 : PollerState) (l m : String),
      fetch_snapshot svc.poller env.fetchEnv = (Except.ok snap, p1) →
      env.line = some l → env.writeRes = Except.error m →
      (poll_once_blocking svc true publish env).1.success = true ∧
      (poll_once_blocking svc true publish env).1.snapshot = some snap ∧
      (poll_once_blocking svc true publish env).1.powerwall_error = none ∧
      (poll_once_blocking svc true publish env).1.influx_error = some m ∧
      (update_state (poll_once_blocking svc true publish env).2
        (poll_once_blocking svc true publish env).1).consecutive_failures = 0) ∧
    (∀ (svc : ServiceState) (push : Bool) (env : PollEnv) (snap : Snapshot)
        (p1 : PollerState) (m : String),
      fetch_snapshot svc.poller env.fetchEnv = (Except.ok snap, p1) →
      env.mqttEnabled = true → env.mqttRes = Except.error m →
      (poll_once_blocking svc push true env).1.success = true ∧
      (poll_once_blocking svc push true env).1.snapshot = some snap ∧
      (poll_once_blocking svc push true env).1.powerwall_error = none ∧
      (poll_once_blocking svc push true env).1.mqtt_error = some m ∧
      (update_state (poll_once_blocking svc push true env).2
        (poll_once_blocking svc push true env).1).consecutive_failures = 0) := by
  constructor
  · intro svc publish env snap p1 l m hfetch hline hwrite
    unfold poll_once_blocking
    rw [hfetch]
    simp [hline, hwrite, update_state, PollingResult.success]
    repeat' split
    all_goals rfl
  · intro svc push env snap p1 m hfetch hmq hmqres
    unfold poll_once_blocking
    rw [hfetch]
    simp [hmq, hmqres, update_state, PollingResult.success]
    repeat' split
    all_goals rfl

/-- Witness for C8 at a concrete successful fetch with a failing store
write and, separately, a failing bus publish. -/
theorem C8_sink_isolation_witness :
    (poll_once_blocking ServiceState.init true false
        { pollEnvBase with writeRes := Except.error "write refused" }).1.success = true ∧
    (poll_once_blocking ServiceState.init true true
        { pollEnvBase with mqttEnabled := true,
                           mqttRes := Except.error "publish refused" }).1.mqtt_error =
      some "publish refused" := by
  constructor
  · exact (C8_sink_isolation.1 ServiceState.init false
      { pollEnvBase with writeRes := Except.error "write refused" }
      (build_snapshot envBase (some powerQuadBase)
        (some { alerts_active := [], system_status := none }) none)
      { PollerState.init with powerwall := some ⟨true⟩, attempts := 1 }
      "pw line" "write refused" (by rfl) (by rfl) (by rfl)).1
  · exact (C8_sink_isolation.2 ServiceState.init true
      { pollEnvBase with mqttEnabled := true, mqttRes := Except.error "publish refused" }
      (build_snapshot envBase (some powerQuadBase)
        (some { alerts_active := [], system_status := none }) none)
      { PollerState.init with powerwall := some ⟨true⟩, attempts := 1 }
      "publish refused" (by rfl) (by rfl) (by rfl)).2.2.2.1

/-- Every path on which the outermost handler of fetch_snapshot re-raises a
`PowerwallUnavailableError` runs close() first, so the resulting poller
state has no handle and a zeroed auth counter. -/
theorem outer_handler_unavail {p : Except BodyErr Snapshot × PollerState}
    {u : UnavailKind} {s' : PollerState}
    (h : outer_handler p = (Except.error (FetchErr.unavailable u), s')) :
    s'.powerwall = none ∧ s'.consecutive_auth_failures = 0 := by
  rcases p with ⟨r, st⟩
  cases r with
  | ok snap => simp [outer_handler] at h
  | error be =>
    cases be with
    | unavail u' =>
      simp only [outer_handler, Prod.mk.injEq] at h
      obtain ⟨h1, h2⟩ := h
      subst h2
      exact ⟨rfl, rfl⟩
    | raw e =>
      rcases hcl : classify_outer e with _ | _ | _
      · simp only [outer_handler, hcl, Prod.mk.injEq] at h
        obtain ⟨h1, h2⟩ := h
        subst h2
        exact ⟨rfl, rfl⟩
      · simp only [outer_handler, hcl, Prod.mk.injEq] at h
        obtain ⟨h1, h2⟩ := h
        subst h2
        exact ⟨rfl, rfl⟩
      · simp only [outer_handler, hcl, Prod.mk.injEq] at h
        exact absurd h.1 (by simp)

/-- `_ensure_connection` never leaves a zero auth counter positive: every
state it can produce either keeps the counter it saw or resets it. -/
theorem ensure_connection_auth_zero (s : PollerState) (f : Bool) (now : ℤ)
    (res : Except Exc Handle) (h : s.consecutive_auth_failures = 0) :
    (ensure_connection s f now res).2.consecutive_auth_failures = 0 := by
  unfold ensure_connection ensure_attempt
  repeat' split
  all_goals simp_all [close]

/-- The power read entered with a zero auth counter and exiting with a raw
(unclassified) error leaves the counter zero: the only raw exits run after
the close() of the retry path. -/
theorem fetch_power_raw_auth_zero (s : PollerState) (env : FetchEnv)
    (e : Exc) (s2 : PollerState) (_h0 : s.consecutive_auth_failures = 0)
    (h : fetch_power s env = (Except.error (BodyErr.raw e), s2)) :
    s2.consecutive_auth_failures = 0 := by
  unfold fetch_power at h
  split at h
  · simp at h
  · split at h
    · split at h
      · split at h
        · rename_i e1 s3 hens
          have hz := ensure_connection_auth_zero
            (close { s with consecutive_auth_failures := s.consecutive_auth_failures + 1 })
            true env.now env.connect2 (by simp [close])
          rw [hens] at hz
          simp only [Prod.mk.injEq] at h
          obtain ⟨h1, h2⟩ := h
          subst h2
          exact hz
        · rename_i s3 hens
          have hz := ensure_connection_auth_zero
            (close { s with consecutive_auth_failures := s.consecutive_auth_failures + 1 })
            true env.now env.connect2 (by simp [close])
          rw [hens] at hz
          split at h
          · simp at h
          · simp only [Prod.mk.injEq] at h
            obtain ⟨h1, h2⟩ := h
            subst h2
            exact hz
      · simp at h
    · simp at h
    · simp at h

/-- The power read entered with a zero auth counter and exiting with a
value leaves the counter zero. -/
theorem fetch_power_ok_auth_zero (s : PollerState) (env : FetchEnv)
    (pv : Option PowerData) (s2 : PollerState)
    (h0 : s.consecutive_auth_failures = 0)
    (h : fetch_power s env = (Except.ok pv, s2)) :
    s2.consecutive_auth_failures = 0 := by
  unfold fetch_power at h
  split at h
  · simp only [Prod.mk.injEq] at h
    obtain ⟨h1, h2⟩ := h
    subst h2
    exact h0
  · split at h
    · split at h
      · split at h
        · simp at h
        · rename_i s3 hens
          have hz := ensure_connection_auth_zero
            (close { s with consecutive_auth_failures := s.consecutive_auth_failures + 1 })
            true env.now env.connect2 (by simp [close])
          rw [hens] at hz
          split at h
          · simp only [Prod.mk.injEq] at h
            obtain ⟨h1, h2⟩ := h
            subst h2
            exact hz
          · simp at h
      · simp at h
    · simp at h
    · simp only [Prod.mk.injEq] at h
      obtain ⟨h1, h2⟩ := h
      subst h2
      exact h0

/-- The status read never exits with a raw error: every failure it lets
through is degraded to an absent value or raised as unavailability. -/
theorem fetch_status_no_raw (s : PollerState) (env : FetchEnv)
    (e : Exc) (s3 : PollerState) :
    fetch_status s env ≠ (Except.error (BodyErr.raw e), s3) := by
  intro h
  unfold fetch_status at h
  split at h
  · simp at h
  · split at h
    · split at h <;> simp at h
    · simp at h
    · simp at h

/-- The vitals read never exits with a raw error. -/
theorem fetch_vitals_no_raw (s : PollerState) (env : FetchEnv)
    (e : Exc) (s3 : PollerState) :
    fetch_vitals s env ≠ (Except.error (BodyErr.raw e), s3) := by
  intro h
  unfold fetch_vitals at h
  split at h
  · simp at h
  · split at h
    · split at h <;> simp at h
    · simp at h
    · simp at h

/-- The body of fetch_snapshot, entered with a zero auth counter, leaves a
zero auth counter on every exit that is not a `PowerwallUnavailableError`
(ok or raw); the unavailability exits are closed by the outer handler. -/
theorem fetch_body_auth_zero (s : PollerState) (env : FetchEnv)
    (r : Except BodyErr Snapshot) (st : PollerState)
    (h0 : s.consecutive_auth_failures = 0)
    (hb : fetch_body s env = (r, st)) :
    (∀ e : Exc, r = Except.error (BodyErr.raw e) →
      st.consecutive_auth_failures = 0) ∧
    (∀ snap : Snapshot, r = Except.ok snap →
      st.consecutive_auth_failures = 0) := by
  unfold fetch_body at hb
  split at hb
  · rename_i e1 s1 hens
    have hz := ensure_connection_auth_zero s
      (s.consecutive_auth_failures ≥ s.max_auth_failures) env.now env.connect1 h0
    rw [hens] at hz
    simp only [Prod.mk.injEq] at hb
    obtain ⟨hb1, hb2⟩ := hb
    subst hb2
    exact ⟨fun _ _ => hz, fun _ _ => hz⟩
  · rename_i s1 hens
    have hs1 := ensure_connection_auth_zero s
      (s.consecutive_auth_failures ≥ s.max_auth_failures) env.now env.connect1 h0
    rw [hens] at hs1
    split at hb
    · rename_i e2 s2 hpw
      simp only [Prod.mk.injEq] at hb
      obtain ⟨hb1, hb2⟩ := hb
      subst hb2
      subst hb1
      refine ⟨?_, by simp⟩
      intro e he
      simp only [Except.error.injEq] at he
      subst he
      exact fetch_power_raw_auth_zero s1 env e s2 hs1 hpw
    · rename_i pv s2 hpw
      have hs2 := fetch_power_ok_auth_zero s1 env pv s2 hs1 hpw
      split at hb
      · rename_i e3 s3 hst
        simp only [Prod.mk.injEq] at hb
        obtain ⟨hb1, hb2⟩ := hb
        subst hb2
        subst hb1
        refine ⟨?_, by simp⟩
        intro e he
        simp only [Except.error.injEq] at he
        subst he
        exact absurd hst (fetch_status_no_raw s2 env e s3)
      · rename_i stv s3 hst
        split at hb
        · rename_i e4 s4 hvt
          simp only [Prod.mk.injEq] at hb
          obtain ⟨hb1, hb2⟩ := hb
          subst hb2
          subst hb1
          refine ⟨?_, by simp⟩
          intro e he
          simp only [Except.error.injEq] at he
          subst he
          exact absurd hvt (fetch_vitals_no_raw s3 env e s4)
        · rename_i vt s4 hvt
          simp only [Prod.mk.injEq] at hb
          obtain ⟨hb1, hb2⟩ := hb
          subst hb2
          exact ⟨fun _ _ => rfl, fun _ _ => rfl⟩

/-- Claim C10: whenever fetch_snapshot raises PowerwallUnavailableError —
backoff rejection, connection failure, exhausted auth budget, or a wrapped
raw error — the poller is left with no live handle and a zero auth
counter, because every such path runs close() before the error propagates
(first conjunct); and every fetch_snapshot call entered with a zero auth
counter also leaves it zero, so the budget can only be reached within a
single invocation, never accumulated across poll cycles (second
conjunct). -/
theorem C10_unavailable_closes :
    (∀ (s : PollerState) (env : FetchEnv) (u : UnavailKind) (s' : PollerState),
      fetch_snapshot s env = (Except.error (FetchErr.unavailable u), s') →
      s'.powerwall = none ∧ s'.consecutive_auth_failures = 0) ∧
    (∀ (s : PollerState) (env : FetchEnv),
      s.consecutive_auth_failures = 0 →
      (fetch_snapshot s env).2.consecutive_auth_failures = 0) := by
  constructor
  · intro s env u s' h
    unfold fetch_snapshot at h
    exact outer_handler_unavail h
  · intro s env h0
    unfold fetch_snapshot
    rcases hb : fetch_body s env with ⟨r, st⟩
    have key := fetch_body_auth_zero s env r st h0 hb
    cases r with
    | ok snap => simpa [outer_handler] using key.2 snap rfl
    | error be =>
      cases be with
      | unavail u => simp [outer_handler, close]
      | raw e =>
        have hst := key.1 e rfl
        rcases hcl : classify_outer e with _ | _ | _ <;>
          simp [outer_handler, hcl, close, hst]

/-- Witness for C10: a concrete connection-refused fetch raises
unavailability and leaves the poller closed with a zero counter, and a
concrete successful fetch keeps the counter at zero. -/
theorem C10_unavailable_closes_witness :
    ((sC10 : PollerState).powerwall = none ∧
      (sC10 : PollerState).consecutive_auth_failures = 0) ∧
    (fetch_snapshot PollerState.init envBase).2.consecutive_auth_failures = 0 := by
  constructor
  · exact C10_unavailable_closes.1 PollerState.init
      { envBase with connect1 := Except.error excConnRefused }
      UnavailKind.connectFailed sC10 (by rfl)
  · exact C10_unavailable_closes.2 PollerState.init envBase (by rfl)

end Powerwall
